import Mathlib

/-!
Verification of the windows-registry-monitor core against its source.

Strings on the Windows wire are UTF-16LE; we model a wide string as the
list of its 16-bit code units (`List Nat`), and buffers of wide data as
lists of code units.  A byte offset `i` in the source corresponds to the
code-unit index `i / 2` here; the source only ever tests and slices at
even byte offsets in the wide-string paths modelled below, so this is a
faithful change of units.
-/

namespace RegMon

/-- Registry value type constants (`RegistryValueType` in the source). -/
def REG_NONE : Nat := 0
def REG_SZ : Nat := 1
def REG_EXPAND_SZ : Nat := 2
def REG_BINARY : Nat := 3
def REG_DWORD : Nat := 4
def REG_LINK : Nat := 6
def REG_MULTI_SZ : Nat := 7
def REG_RESOURCE_LIST : Nat := 8
def REG_QWORD : Nat := 11

/-- Error code constants (`ErrorCode` in the source). -/
def KeyNotFound : Nat := 2
def KeyMarkedForDeletion : Nat := 1018

/-! ## ValueCodec: REG_MULTI_SZ encode (setValue) and decode (getValue)

`toNullTerminatedWString(str)` appends one NUL code unit to the string.
The REG_MULTI_SZ branch of `setValue` concatenates the NUL-terminated
encodings of all strings and appends one extra NUL terminator.
-/

/-- `toNullTerminatedWString` from wstring.js, at code-unit level. -/
def toNullTerminatedWString (s : List Nat) : List Nat := s ++ [0]

/-- The REG_MULTI_SZ wire encoding built by `RegistryKey.setValue`:
each string NUL-terminated, concatenated, plus one final extra NUL. -/
def encodeMultiSz (vs : List (List Nat)) : List Nat :=
  (vs.map toNullTerminatedWString).flatten ++ [0]

/-- The REG_MULTI_SZ scan loop of `RegistryKey.getValue`, at code-unit
level.  In the source (byte offsets): `currentStringStart` begins at 0,
`i` begins at 2, the loop runs while `i < buffer.length - 2`; on a
double-zero at `i` it pushes `fromWString(buffer, currentStringStart, i)`,
sets `currentStringStart = i + 2; i = currentStringStart`, and the loop
footer adds 2 more.  In code units: `start` begins at 0, `i` begins at 1,
the loop runs while `i + 1 < b.length`; on a zero unit it pushes the
slice `[start, i)`, sets `start := i + 1` and resumes at `i + 2`. -/
def decodeMultiSzAux (b : List Nat) (start i : Nat) (acc : List (List Nat)) :
    List (List Nat) :=
  if i + 1 < b.length then
    if b.getD i 1 = 0 then
      decodeMultiSzAux b (i + 1) (i + 2) (acc ++ [(b.drop start).take (i - start)])
    else
      decodeMultiSzAux b start (i + 1) acc
  else
    acc
termination_by b.length - i
decreasing_by
  all_goals omega

/-- The REG_MULTI_SZ branch of `RegistryKey.getValue`. -/
def decodeMultiSz (b : List Nat) : List (List Nat) :=
  decodeMultiSzAux b 0 1 []

/-- While the scanned positions hold nonzero units, the decode loop only
advances `i`, leaving `start` and the accumulator untouched. -/
theorem decodeMultiSzAux_skip (b : List Nat) (m : Nat) :
    ∀ (i start : Nat) (acc : List (List Nat)),
    (∀ j, j < m → b.getD (i + j) 1 ≠ 0) → i + m < b.length →
    decodeMultiSzAux b start i acc = decodeMultiSzAux b start (i + m) acc := by
  induction m with
  | zero => intro i start acc _ _; rfl
  | succ n ih =>
    intro i start acc hnz hlen
    rw [decodeMultiSzAux]
    have h1 : i + 1 < b.length := by omega
    have h0 : ¬ b.getD i 1 = 0 := by
      have := hnz 0 (by omega)
      simpa using this
    rw [if_pos h1, if_neg h0]
    have hrec := ih (i + 1) start acc
      (fun j hj => by
        have := hnz (j + 1) (by omega)
        simpa [Nat.add_assoc, Nat.add_comm 1 j] using this)
      (by omega)
    rw [hrec]
    congr 1
    omega

/-- Invariant of the decode loop: with a fully processed prefix `p`
behind it (`start = p.length`, `i = start + 1`), scanning the encoding of
a list of nonempty NUL-free strings appends exactly those strings to the
accumulator. -/
theorem decodeMultiSzAux_spec (vs : List (List Nat)) :
    ∀ (p : List Nat) (acc : List (List Nat)),
    (∀ s ∈ vs, s ≠ [] ∧ ¬ (0 ∈ s)) →
    decodeMultiSzAux (p ++ (vs.map toNullTerminatedWString).flatten ++ [0])
      p.length (p.length + 1) acc = acc ++ vs := by
  induction vs with
  | nil =>
    intro p acc _
    rw [decodeMultiSzAux]
    simp
  | cons s vs ih =>
    intro p acc hvs
    obtain ⟨hne, hnz⟩ := hvs s (List.mem_cons_self s vs)
    have hslen : 1 ≤ s.length := by
      cases s with
      | nil => exact absurd rfl hne
      | cons a t => simp
    set flat := (vs.map toNullTerminatedWString).flatten with hflat
    have hb : p ++ ((s :: vs).map toNullTerminatedWString).flatten ++ [0]
        = p ++ ((s ++ [0]) ++ (flat ++ [0])) := by
      simp [toNullTerminatedWString, hflat]
    rw [hb]
    set b := p ++ ((s ++ [0]) ++ (flat ++ [0])) with hbdef
    have hblen : b.length = p.length + s.length + 1 + flat.length + 1 := by
      simp [hbdef]; omega
    -- positions p.length + 1 + j for j < s.length - 1 hold s[1+j] ≠ 0
    have hskip := decodeMultiSzAux_skip b (s.length - 1) (p.length + 1)
      p.length acc
      (fun j hj => by
        have hidx : p.length + 1 + j = p.length + (1 + j) := by omega
        have hlt : 1 + j < s.length := by omega
        have h1 : b.getD (p.length + 1 + j) 1
            = ((s ++ [0]) ++ (flat ++ [0])).getD (1 + j) 1 := by
          rw [hidx, hbdef, List.getD_append_right _ _ _ _ (by omega)]
          congr 1
          omega
        have h2 : ((s ++ [0]) ++ (flat ++ [0])).getD (1 + j) 1 = s.getD (1 + j) 1 := by
          rw [List.getD_append _ _ _ _ (by simp; omega),
              List.getD_append _ _ _ _ hlt]
        rw [h1, h2, List.getD_eq_getElem _ _ hlt]
        intro hzero
        exact hnz (hzero ▸ List.getElem_mem hlt))
      (by omega)
    rw [hskip]
    have hi : p.length + 1 + (s.length - 1) = p.length + s.length := by omega
    rw [hi, decodeMultiSzAux]
    have hcond : p.length + s.length + 1 < b.length := by omega
    rw [if_pos hcond]
    have hterm : b.getD (p.length + s.length) 1 = 0 := by
      rw [hbdef, List.getD_append_right _ _ _ _ (by omega)]
      have : p.length + s.length - p.length = s.length := by omega
      rw [this, List.getD_append _ _ _ _ (by simp)]
      rw [List.getD_append_right _ _ _ _ (by omega)]
      simp
    rw [if_pos hterm]
    have hslice : (b.drop p.length).take (p.length + s.length - p.length) = s := by
      rw [hbdef, List.drop_left]
      have : p.length + s.length - p.length = s.length := by omega
      rw [this, List.append_assoc, List.take_left]
    rw [hslice]
    -- recurse with processed prefix p ++ s ++ [0]
    have hb2 : b = (p ++ s ++ [0]) ++ (vs.map toNullTerminatedWString).flatten ++ [0] := by
      simp [hbdef, hflat]
    have hlen2 : (p ++ s ++ [0]).length = p.length + s.length + 1 := by
      simp
      omega
    have hrec := ih (p ++ s ++ [0]) (acc ++ [s]) (fun t ht => hvs t (List.mem_cons_of_mem s ht))
    rw [hlen2] at hrec
    rw [hb2]
    have : p.length + s.length + 2 = p.length + s.length + 1 + 1 := by omega
    rw [this, hrec]
    simp

/-- C1 counterexample: encoding the one-element array containing the
empty string and decoding it back yields `[]`, not `[""]` — the decode
scan starts at code-unit index 1 and never sees the empty string's
terminator at index 0. -/
theorem multiSz_roundtrip_counterexample :
    decodeMultiSz (encodeMultiSz [([] : List Nat)]) ≠ [[]] := by
  have h : decodeMultiSz (encodeMultiSz [([] : List Nat)]) = [] := by
    rw [encodeMultiSz, decodeMultiSz]
    rw [decodeMultiSzAux]
    norm_num [toNullTerminatedWString]
  rw [h]
  simp

/-- C1 (amended): the REG_MULTI_SZ round-trip law holds for every array
of strings in which each string is nonempty and contains no NUL code
unit: decoding the `setValue` wire encoding with the `getValue` scan
yields exactly the original array, in order. Arrays containing empty
strings are not recovered. -/
theorem multiSz_roundtrip (vs : List (List Nat))
    (h : ∀ s ∈ vs, s ≠ [] ∧ ¬ (0 ∈ s)) :
    decodeMultiSz (encodeMultiSz vs) = vs := by
  have hspec := decodeMultiSzAux_spec vs [] [] h
  simpa [decodeMultiSz, encodeMultiSz] using hspec

/-- C1 witness: the amended round-trip law evaluated on `["1", "23"]`
(code units `[49]` and `[50, 51]`). -/
theorem multiSz_roundtrip_witness :
    decodeMultiSz (encodeMultiSz [[49], [50, 51]]) = [[49], [50, 51]] :=
  multiSz_roundtrip [[49], [50, 51]] (by decide)

/-! ## KeyHandle close: `RegistryKey.close` / `Registry.closeKeyInternal`

`close()` calls `Registry.instance.closeKeyInternal(this.keyData)` only
when the handle is non-null, and returns `this.keyData.handle === null`.
`closeKeyInternal` calls the native `RegCloseKey` when the handle is
non-null; a nonzero result leaves the handle in place and returns false,
a zero result clears the handle.  We instrument the state with the
number of native `RegCloseKey` invocations and the number of successful
releases; `api` gives the `RegCloseKey` result of each successive native
call (0 = success). -/

structure CloseState where
  handle : Option Nat
  calls : Nat
  releases : Nat
deriving DecidableEq, Repr

/-- `Registry.closeKeyInternal` (the already-closed branch only logs a
warning). -/
def closeKeyInternal (api : Nat → Nat) (s : CloseState) : CloseState × Bool :=
  match s.handle with
  | some _ =>
    let result := api s.calls
    if result ≠ 0 then
      ({ s with calls := s.calls + 1 }, false)
    else
      ({ handle := none, calls := s.calls + 1, releases := s.releases + 1 }, true)
  | none => (s, true)

/-- `RegistryKey.close`: delegates to `closeKeyInternal` when the handle
is non-null and returns whether the handle is null afterwards. -/
def close (api : Nat → Nat) (s : CloseState) : CloseState × Bool :=
  match s.handle with
  | some _ =>
    let s' := (closeKeyInternal api s).1
    (s', decide (s'.handle = none))
  | none => (s, true)

/-- `close` iterated `n` times. -/
def iterClose (api : Nat → Nat) (s : CloseState) : Nat → CloseState
  | 0 => s
  | n + 1 => iterClose api (close api s).1 n

/-- Invariant carried through repeated closes: at most one successful
native release ever happens, and while the handle is still live no
release has happened yet. -/
def closeInv (s : CloseState) : Prop :=
  s.releases ≤ 1 ∧ (s.handle ≠ none → s.releases = 0)

theorem close_preserves_inv (api : Nat → Nat) (s : CloseState)
    (h : closeInv s) : closeInv (close api s).1 := by
  obtain ⟨h1, h2⟩ := h
  cases hh : s.handle with
  | none => simpa [close, hh] using ⟨h1, h2⟩
  | some v =>
    have h0 : s.releases = 0 := h2 (by simp [hh])
    by_cases hr : api s.calls ≠ 0
    · simp [close, closeKeyInternal, hh, hr, closeInv, h0]
    · simp only [ne_eq, not_not] at hr
      simp [close, closeKeyInternal, hh, hr, closeInv, h0]

theorem iterClose_preserves_inv (api : Nat → Nat) (n : Nat) :
    ∀ s : CloseState, closeInv s → closeInv (iterClose api s n) := by
  induction n with
  | zero => intro s h; exact h
  | succ m ih =>
    intro s h
    exact ih _ (close_preserves_inv api s h)

/-- C9: `close()` is idempotent and releases at most once.  (a) On a
state whose native handle is already released, `close` performs no
native call, leaves the state unchanged and returns true.  (b) After any
successful `close` the handle field is null.  (c) Starting from a state
that has performed no release yet, any number of repeated `close` calls
performs at most one successful native release. -/
theorem close_idempotent_releases_once (api : Nat → Nat) (s : CloseState)
    (n : Nat) (hrel : s.releases = 0) :
    (s.handle = none → close api s = (s, true))
    ∧ (∀ s' : CloseState, close api s = (s', true) → s'.handle = none)
    ∧ (iterClose api s n).releases ≤ 1 := by
  refine ⟨?_, ?_, ?_⟩
  · intro hnone
    simp [close, hnone]
  · intro s' hclose
    cases hh : s.handle with
    | none =>
      simp [close, hh] at hclose
      rw [← hclose]
      exact hh
    | some v =>
      simp only [close, hh, Prod.mk.injEq] at hclose
      obtain ⟨h1, h2⟩ := hclose
      rw [← h1]
      simpa using h2
  · have := iterClose_preserves_inv api n s ⟨by omega, fun _ => hrel⟩
    exact this.1

/-- C9 witness: the theorem applied to a concrete already-closed state
and a concrete API oracle. -/
theorem close_idempotent_releases_once_witness :
    close (fun _ => 0) (CloseState.mk none 0 0) = (CloseState.mk none 0 0, true)
    ∧ (iterClose (fun _ => 0) (CloseState.mk none 0 0) 3).releases ≤ 1 :=
  ⟨(close_idempotent_releases_once (fun _ => 0) (CloseState.mk none 0 0) 3 rfl).1 rfl,
   (close_idempotent_releases_once (fun _ => 0) (CloseState.mk none 0 0) 3 rfl).2.2⟩

/-! ## `RegistryKey.invokeApiWithRetry`

The source increments `numRetries` once (`++numRetries`), then loops
`while (numRetries-- > 0)`: it invokes the operation, and if the result
is `KeyMarkedForDeletion` it reopens the key (side effects on the key
handle, not observed by the return value) and loops, otherwise it breaks.
It returns the last assigned `result` (initially 0, but the loop body
always runs at least once).  `op i` is the result of the `i`-th
invocation; the second component counts invocations performed. -/

def invokeApiLoop (op : Nat → Nat) : Nat → Nat → Nat → Nat × Nat
  | 0, i, result => (result, i)
  | tries + 1, i, _ =>
    let r := op i
    if r = KeyMarkedForDeletion then
      invokeApiLoop op tries (i + 1) r
    else
      (r, i + 1)

def invokeApiWithRetry (op : Nat → Nat) (numRetries : Nat := 1) : Nat × Nat :=
  invokeApiLoop op (numRetries + 1) 0 0

theorem invokeApiLoop_invocations_le (op : Nat → Nat) :
    ∀ (tries i r : Nat), (invokeApiLoop op tries i r).2 ≤ i + tries := by
  intro tries
  induction tries with
  | zero => intro i r; simp [invokeApiLoop]
  | succ t ih =>
    intro i r
    by_cases h : op i = KeyMarkedForDeletion
    · simp only [invokeApiLoop, h, if_pos]
      have hx := ih (i + 1) (op i)
      rw [h] at hx
      omega
    · simp only [invokeApiLoop, h, if_neg, ite_false]
      omega

theorem invokeApiLoop_last (op : Nat → Nat) :
    ∀ (tries i r : Nat), 0 < tries →
    (invokeApiLoop op tries i r).1 = op ((invokeApiLoop op tries i r).2 - 1)
    ∧ i < (invokeApiLoop op tries i r).2 := by
  intro tries
  induction tries with
  | zero => intro i r h; omega
  | succ t ih =>
    intro i r _
    by_cases h : op i = KeyMarkedForDeletion
    · simp only [invokeApiLoop, h, if_pos]
      cases t with
      | zero => simp [invokeApiLoop, h]
      | succ t' =>
        have hx := ih (i + 1) (op i) (by omega)
        rw [h] at hx
        exact ⟨hx.1, by omega⟩
    · simp [invokeApiLoop, h]

/-- C5: `invokeApiWithRetry(op, n)` performs at most `n + 1` invocations
(and at least one); if the first result is not the "key marked for
deletion" code it returns it immediately after a single invocation;
the returned value is always the result of the last invocation
performed. -/
theorem invokeApiWithRetry_spec (op : Nat → Nat) (n : Nat) :
    (invokeApiWithRetry op n).2 ≤ n + 1
    ∧ 1 ≤ (invokeApiWithRetry op n).2
    ∧ (op 0 ≠ KeyMarkedForDeletion →
        invokeApiWithRetry op n = (op 0, 1))
    ∧ (invokeApiWithRetry op n).1 = op ((invokeApiWithRetry op n).2 - 1) := by
  refine ⟨?_, ?_, ?_, ?_⟩
  · simpa [invokeApiWithRetry] using invokeApiLoop_invocations_le op (n + 1) 0 0
  · have := (invokeApiLoop_last op (n + 1) 0 0 (by omega)).2
    simpa [invokeApiWithRetry] using this
  · intro h
    simp [invokeApiWithRetry, invokeApiLoop, h]
  · exact (invokeApiLoop_last op (n + 1) 0 0 (by omega)).1

/-- C5 witness: the theorem applied to the concrete operation whose
first invocation succeeds with result 7, with the default single
retry: exactly one invocation, returning 7. -/
theorem invokeApiWithRetry_spec_witness :
    (invokeApiWithRetry (fun _ => 7) 1).2 ≤ 2
    ∧ 1 ≤ (invokeApiWithRetry (fun _ => 7) 1).2
    ∧ invokeApiWithRetry (fun _ => 7) 1 = (7, 1)
    ∧ (invokeApiWithRetry (fun _ => 7) 1).1
        = (fun _ : Nat => 7) ((invokeApiWithRetry (fun _ => 7) 1).2 - 1) :=
  have h := invokeApiWithRetry_spec (fun _ => 7) 1
  ⟨h.1, h.2.1, h.2.2.1 (by decide), h.2.2.2⟩

/-! ## `RegistryKey.setValue`

`setValue(name, value, type)` first checks the key handle; then, if the
optional `type` parameter is falsy (`!type` — true both for `undefined`
and for `REG_NONE`, which is numerically 0), looks up the stored type
with `getValueType` and aborts with `false` when that lookup yields
`REG_NONE`.  The switch over the (effective) type builds the data
buffer for the six supported types; its default branch logs an error
whose template literal dereferences the out-of-scope name `valueType`
(a ReferenceError at runtime when logging is enabled) and otherwise
returns `false`.  Finally the native `RegSetValueExW` is invoked through
`invokeApiWithRetry`.

Values are a tagged union; a value whose runtime shape does not match
the selected type makes the JS buffer write (or `value.map`) throw,
modelled as `thrown`.  The second result component counts native
`RegSetValueExW` invocations. -/

inductive RegValue where
  | num (n : Nat)
  | str (s : List Nat)
  | multi (ss : List (List Nat))
  | bin (b : List Nat)
deriving DecidableEq, Repr

/-- Outcome of a JS method: a returned value or a thrown exception. -/
inductive SetValueOutcome where
  | ret (b : Bool)
  | thrown
deriving DecidableEq, Repr

/-- JS truthiness test `!type` on the optional type parameter:
`undefined` (absent) and `REG_NONE` (0) are falsy. -/
def typeFalsy : Option Nat → Bool
  | none => true
  | some t => t == 0

/-- Little-endian byte serialization of width `w` (Buffer.writeUInt32LE
/ writeUInt64LE). -/
def bytesLE : Nat → Nat → List Nat
  | 0, _ => []
  | w + 1, n => n % 256 :: bytesLE w (n / 256)

structure SetValueEnv where
  /-- Result of the `getValueType(name)` lookup. -/
  storedType : Nat
  /-- Results of successive native `RegSetValueExW` invocations. -/
  setResult : Nat → Nat

def setValue (env : SetValueEnv) (logging : Bool) (handle : Option Nat)
    (value : RegValue) (type? : Option Nat) : SetValueOutcome × Nat :=
  match handle with
  | none => (.ret false, 0)
  | some _ =>
    let tEff : Option Nat :=
      if typeFalsy type? then
        if env.storedType = REG_NONE then none else some env.storedType
      else type?
    match tEff with
    | none => (.ret false, 0)
    | some t =>
      if t = REG_DWORD ∨ t = REG_QWORD ∨ t = REG_SZ ∨ t = REG_EXPAND_SZ
          ∨ t = REG_MULTI_SZ ∨ t = REG_BINARY then
        let data : Option (List Nat) :=
          if t = REG_DWORD then
            (match value with | .num n => some (bytesLE 4 n) | _ => none)
          else if t = REG_QWORD then
            (match value with | .num n => some (bytesLE 8 n) | _ => none)
          else if t = REG_SZ ∨ t = REG_EXPAND_SZ then
            (match value with | .str s => some (toNullTerminatedWString s) | _ => none)
          else if t = REG_MULTI_SZ then
            (match value with | .multi ss => some (encodeMultiSz ss) | _ => none)
          else
            (match value with | .bin b => some b | _ => none)
        match data with
        | some _ =>
          let r := invokeApiWithRetry env.setResult 1
          (.ret (decide (r.1 = 0)), r.2)
        | none => (.thrown, 0)
      else
        if logging then (.thrown, 0) else (.ret false, 0)

/-- C6: at the failing input — an explicitly provided unsupported type
(`REG_LINK`) with logging enabled (the default) — `setValue` throws
(the default switch branch dereferences the out-of-scope `valueType`),
instead of returning `false` as the claim requires; only with logging
disabled does it return `false`.  No native set-value call happens in
either case. -/
theorem setValue_unsupported_type_throws :
    setValue ⟨REG_SZ, fun _ => 0⟩ true (some 1) (.bin [1]) (some REG_LINK)
      = (.thrown, 0)
    ∧ setValue ⟨REG_SZ, fun _ => 0⟩ false (some 1) (.bin [1]) (some REG_LINK)
      = (.ret false, 0) := by
  constructor <;> rfl

/-- C10: passing `REG_NONE` (numerically 0, hence falsy under the `!type`
test) as the explicit type behaves identically to omitting the type for
every environment, logging mode, handle and value; in particular, when
the stored-type lookup yields `REG_NONE` (value absent), the write is
aborted with `false` and no native set-value call. -/
theorem setValue_REG_NONE_eq_omitted (env : SetValueEnv) (logging : Bool)
    (handle : Option Nat) (v : RegValue) :
    setValue env logging handle v (some REG_NONE)
      = setValue env logging handle v none
    ∧ (handle ≠ none → env.storedType = REG_NONE →
        setValue env logging handle v (some REG_NONE) = (.ret false, 0)) := by
  constructor
  · rfl
  · intro hh hstored
    match handle with
    | none => exact absurd rfl hh
    | some k =>
      simp [setValue, typeFalsy, hstored, REG_NONE]

/-- C10 witness: the theorem applied to a concrete environment whose
stored-type lookup yields `REG_NONE`. -/
theorem setValue_REG_NONE_eq_omitted_witness :
    setValue ⟨REG_NONE, fun _ => 0⟩ true (some 5) (.num 1) (some REG_NONE)
      = (.ret false, 0) :=
  (setValue_REG_NONE_eq_omitted ⟨REG_NONE, fun _ => 0⟩ true (some 5) (.num 1)).2
    (by simp) rfl

/-! ## The monitoring engine

Operational model of `MonitoredRegistryKey`, `MonitorToken` and the
`Registry` facade.  JS objects live in a heap (`World.heap`) addressed
by allocation index, mirroring reference semantics; the two path→key
maps are association lists with JS object-property semantics (overwrite
keeps the original position, delete removes, fresh insert appends; the
paths are non-integer strings, so `for...in` iterates in insertion
order).  Native API results are supplied by an environment of oracles,
one stream per API, consumed at per-API call counters held in the
world.  Callbacks are opaque identifiers (JS function references);
their own side effects are not modelled. -/

abbrev Path := Nat
abbrev Callback := Nat

/-- Observable events of a dispatch: native `RegNotifyChangeKeyValue`
invocations and subscriber-callback invocations. -/
inductive Ev where
  | notify (result : Nat)
  | invoke (cb : Callback) (keyId : Nat)
deriving DecidableEq, Repr

/-- State of one `MonitoredRegistryKey` object: the `RegistryKey` part
(`keyData.handle`, `createIfNeeded`) plus `monitorData` (`recursive`,
`waitHandle`) and the ordered callback list. -/
structure MonitoredKey where
  path : Path
  recursive : Bool
  createIfNeeded : Bool
  keyHandle : Option Nat
  waitHandle : Option Nat
  callbacks : List Callback
deriving DecidableEq, Repr

/-- `RegistryKey.isValid` (the `super.isValid` of a monitored key). -/
def MonitoredKey.superValid (k : MonitoredKey) : Bool := k.keyHandle.isSome

/-- `MonitoredRegistryKey.isValid`: key handle open and wait object live. -/
def MonitoredKey.isValid (k : MonitoredKey) : Bool :=
  k.keyHandle.isSome && k.waitHandle.isSome

/-- Native API oracles: the `i`-th call of each API yields the listed
result.  `0` is success for the registry APIs; `CloseHandle` succeeds
when the oracle is `true`; `CreateEventW` yields `none` for a NULL
handle. -/
structure Env where
  pathValid : Path → Bool
  openResult : Nat → Nat
  createResult : Nat → Nat
  createEventResult : Nat → Option Nat
  notifyResult : Nat → Nat
  closeKeyResult : Nat → Nat
  closeHandleOk : Nat → Bool

structure World where
  heap : List MonitoredKey
  monKeys : List (Path × Nat)
  monRecKeys : List (Path × Nat)
  keysArray : List Nat
  timer : Bool
  openCalls : Nat
  createCalls : Nat
  eventCalls : Nat
  notifyCalls : Nat
  closeKeyCalls : Nat
  closeHandleCalls : Nat
deriving DecidableEq, Repr

def initialWorld : World :=
  ⟨[], [], [], [], false, 0, 0, 0, 0, 0, 0⟩

def World.key (w : World) (id : Nat) : MonitoredKey :=
  w.heap.getD id ⟨0, false, false, none, none, []⟩

def World.updateKey (w : World) (id : Nat) (f : MonitoredKey → MonitoredKey) :
    World :=
  { w with heap := w.heap.set id (f (w.key id)) }

/-- JS object property assignment: overwrite in place, else append. -/
def alistInsert (l : List (Path × Nat)) (p : Path) (v : Nat) :
    List (Path × Nat) :=
  if (l.lookup p).isSome then
    l.map (fun e => if e.1 = p then (p, v) else e)
  else
    l ++ [(p, v)]

/-- JS `delete obj[path]`. -/
def alistErase (l : List (Path × Nat)) (p : Path) : List (Path × Nat) :=
  l.filter (fun e => e.1 ≠ p)

/-- `Registry.closeKeyInternal` followed by `RegistryKey.close`'s
`return this.keyData.handle === null`; the already-closed branch only
logs a warning. -/
def keyClose (env : Env) (w : World) (id : Nat) : World × Bool :=
  let k := w.key id
  match k.keyHandle with
  | some _ =>
    let r := env.closeKeyResult w.closeKeyCalls
    let w := { w with closeKeyCalls := w.closeKeyCalls + 1 }
    if r ≠ 0 then (w, false)
    else (w.updateKey id (fun k => { k with keyHandle := none }), true)
  | none => (w, true)

/-- The `RegCreateKeyExW` part of `RegistryKey.create` (after the
close-if-open step).  Note the source quirk: with an unparsable root
the `RegCreateKeyExW` block is skipped and `create` returns true
without opening anything. -/
def keyCreateNative (env : Env) (w : World) (id : Nat) : World × Bool :=
  if env.pathValid (w.key id).path then
    let r := env.createResult w.createCalls
    let h := w.createCalls
    let w := { w with createCalls := w.createCalls + 1 }
    if r = 0 then
      (w.updateKey id (fun k => { k with keyHandle := some h }), true)
    else (w, false)
  else (w, true)

/-- `RegistryKey.create`: fails when creation is not permitted; closes
an already-open handle first; then creates. -/
def keyCreate (env : Env) (w : World) (id : Nat) : World × Bool :=
  let k := w.key id
  if ¬ k.createIfNeeded then (w, false)
  else
    match k.keyHandle with
    | some _ =>
      let s := keyClose env w id
      if ¬ s.2 then (s.1, false) else keyCreateNative env s.1 id
    | none => keyCreateNative env w id

/-- `RegistryKey.open`: no-op when already open; unparsable root fails;
`KeyNotFound` delegates to `create`; other errors fail. -/
def keyOpen (env : Env) (w : World) (id : Nat) : World × Bool :=
  let k := w.key id
  match k.keyHandle with
  | some _ => (w, true)
  | none =>
    if env.pathValid k.path then
      let r := env.openResult w.openCalls
      let h := w.openCalls
      let w := { w with openCalls := w.openCalls + 1 }
      if r = 0 then
        (w.updateKey id (fun k => { k with keyHandle := some h }), true)
      else if r = KeyNotFound then keyCreate env w id
      else (w, false)
    else (w, false)

/-- `RegistryKey.reopen`: close, then open if the close succeeded. -/
def keyReopenSuper (env : Env) (w : World) (id : Nat) : World × Bool :=
  let s := keyClose env w id
  if s.2 then keyOpen env s.1 id else (s.1, false)

/-- `MonitoredRegistryKey.registerForNotification`, with
`MonitoredRegistryKey.reopen` inlined on the "key marked for deletion"
branch (`reopen` = `super.reopen()`, then re-register if still valid).
The source recurses unboundedly while the OS keeps reporting deletion;
`fuel` bounds that recursion here.  Note the source quirk: after
`this.reopen()` the deletion branch falls through and returns
`undefined` (falsy), regardless of whether the retried registration
succeeded; it is modelled as `false`.  The trace records every native
`RegNotifyChangeKeyValue` invocation with its result. -/
def registerForNotification (env : Env) :
    Nat → World → Nat → World × Bool × List Ev
  | 0, w, _ => (w, false, [])
  | fuel + 1, w, id =>
    let r := env.notifyResult w.notifyCalls
    let w := { w with notifyCalls := w.notifyCalls + 1 }
    if r = KeyMarkedForDeletion then
      let s := keyReopenSuper env w id
      let t :=
        if s.2 ∧ (s.1.key id).isValid = true then
          registerForNotification env fuel s.1 id
        else (s.1, false, [])
      (t.1, false, Ev.notify r :: t.2.2)
    else if r ≠ 0 then (w, false, [Ev.notify r])
    else (w, true, [Ev.notify r])

/-- `MonitoredRegistryKey.start`: no-op when already watching; requires
a valid key handle; creates the auto-reset event, then registers for
one change notification. -/
def mkStart (env : Env) (fuel : Nat) (w : World) (id : Nat) :
    World × Bool × List Ev :=
  let k := w.key id
  match k.waitHandle with
  | some _ => (w, true, [])
  | none =>
    if k.superValid then
      let ev := env.createEventResult w.eventCalls
      let w := { w with eventCalls := w.eventCalls + 1 }
      match ev with
      | none => (w, false, [])
      | some h =>
        let w := w.updateKey id (fun k => { k with waitHandle := some h })
        registerForNotification env fuel w id
    else (w, false, [])

/-- `Registry.updateMonitoredKeysArray`: rebuild the flattened array
(recursive watches first, each map in insertion order) and stop the
poll timer when it became empty.  The native handle-address buffer it
also rebuilds is not observable here. -/
def updateMonitoredKeysArray (w : World) : World :=
  let arr := (w.monRecKeys.map Prod.snd) ++ (w.monKeys.map Prod.snd)
  let w := { w with keysArray := arr }
  if arr.isEmpty then { w with timer := false } else w

/-- `Registry.stopMonitoredKeyInternal`: close the wait handle, and on
success clear it, remove the key from its map and rebuild the array.
(The already-stopped warning branch is unreachable from `stop()`.) -/
def stopMonitoredKeyInternal (env : Env) (w : World) (id : Nat) :
    World × Bool :=
  let k := w.key id
  match k.waitHandle with
  | some _ =>
    let ok := env.closeHandleOk w.closeHandleCalls
    let w := { w with closeHandleCalls := w.closeHandleCalls + 1 }
    if ok then
      let w := w.updateKey id (fun k => { k with waitHandle := none })
      let w :=
        if k.recursive then
          { w with monRecKeys := alistErase w.monRecKeys k.path }
        else
          { w with monKeys := alistErase w.monKeys k.path }
      (updateMonitoredKeysArray w, true)
    else (w, false)
  | none => (w, true)

/-- `MonitoredRegistryKey.stop`: idempotent; on success clears the
callback list. -/
def mkStop (env : Env) (w : World) (id : Nat) : World × Bool :=
  match (w.key id).waitHandle with
  | none => (w.updateKey id (fun k => { k with callbacks := [] }), true)
  | some _ =>
    let s := stopMonitoredKeyInternal env w id
    match (s.1.key id).waitHandle with
    | none => (s.1.updateKey id (fun k => { k with callbacks := [] }), true)
    | some _ => (s.1, false)

/-- `MonitoredRegistryKey.removeCallback`: `indexOf` + `splice` remove
the first occurrence (`List.erase`); removing the last callback stops
and then closes the key (`return this.stop() && this.close()`). -/
def removeCallback (env : Env) (w : World) (id : Nat) (cb : Callback) :
    World × Bool :=
  let k := w.key id
  if k.callbacks.contains cb then
    let w := w.updateKey id (fun k => { k with callbacks := k.callbacks.erase cb })
    if (w.key id).callbacks.isEmpty then
      let s := mkStop env w id
      if s.2 then keyClose env s.1 id else (s.1, false)
    else (w, true)
  else (w, false)

/-- `MonitorToken`'s `tokenData` (callback is null once stopped). -/
structure Token where
  path : Path
  recursive : Bool
  callback : Option Callback
deriving DecidableEq, Repr

/-- The `!key` arm of `Registry.monitorKey`: construct a
`MonitoredRegistryKey` (whose constructor opens the key, adds the
callback and starts the monitor, ignoring both results), then either
publish it (map insert, array rebuild) or tear it down. -/
def monitorKeyNew (env : Env) (fuel : Nat) (w : World) (p : Path)
    (recursive createIfNeeded : Bool) (cb : Callback) : World × Option Token :=
  let id := w.heap.length
  let w := { w with heap := w.heap ++ [⟨p, recursive, createIfNeeded, none, none, []⟩] }
  let w := (keyOpen env w id).1
  let w := w.updateKey id (fun k => { k with callbacks := k.callbacks ++ [cb] })
  let w := (mkStart env fuel w id).1
  if (w.key id).isValid then
    let w :=
      if recursive then
        { w with monRecKeys := alistInsert w.monRecKeys p id }
      else
        { w with monKeys := alistInsert w.monKeys p id }
    let w := updateMonitoredKeysArray w
    let w := { w with timer := true }
    (w, some ⟨p, recursive, some cb⟩)
  else
    ((mkStop env w id).1, none)

/-- `Registry.monitorKey`: reuse a valid already-monitored key for the
same (path, recursive) pair — appending the callback, ensuring the poll
timer runs and minting a fresh token — or discard an invalid one and
construct a replacement. -/
def monitorKey (env : Env) (fuel : Nat) (w : World) (p : Path)
    (recursive createIfNeeded : Bool) (cb : Callback) : World × Option Token :=
  match (if recursive then w.monRecKeys else w.monKeys).lookup p with
  | some id =>
    if (w.key id).isValid then
      let w := w.updateKey id (fun k => { k with callbacks := k.callbacks ++ [cb] })
      let w := { w with timer := true }
      (w, some ⟨p, recursive, some cb⟩)
    else
      monitorKeyNew env fuel w p recursive createIfNeeded cb
  | none => monitorKeyNew env fuel w p recursive createIfNeeded cb

/-- `Registry.stopMonitorInternal`: remove the token's callback from
its monitored key; warn (but succeed) when the key is not monitored or
the token already stopped. -/
def stopMonitorInternal (env : Env) (w : World) (t : Token) :
    World × Token × Bool :=
  match t.callback with
  | some cb =>
    match (if t.recursive then w.monRecKeys else w.monKeys).lookup t.path with
    | some id =>
      let s := removeCallback env w id cb
      if s.2 then (s.1, { t with callback := none }, true)
      else (s.1, t, false)
    | none => (w, { t with callback := none }, true)
  | none => (w, t, true)

/-- `MonitorToken.stop`: delegate to the facade and report whether the
callback field is now null. -/
def tokenStop (env : Env) (w : World) (t : Token) : World × Token × Bool :=
  let s := stopMonitorInternal env w t
  (s.1, s.2.1, decide (s.2.1.callback = none))

/-- `MonitoredRegistryKey.onMonitorTriggered`: re-register for the next
one-shot notification first, then invoke every registered callback in
registration order, each receiving this key. -/
def onMonitorTriggered (env : Env) (fuel : Nat) (w : World) (id : Nat) :
    World × List Ev :=
  let s := registerForNotification env fuel w id
  (s.1, s.2.2 ++ (s.1.key id).callbacks.map (fun cb => Ev.invoke cb id))

/-! ### Frame lemmas

The `RegistryKey`-level operations and notification registration touch
only key handles, wait handles and native-call counters: they leave the
facade state (maps, flattened array, timer) and every callback list
unchanged. -/

theorem getD_set {α : Type} (l : List α) (i j : Nat) (a d : α) :
    (l.set i a).getD j d = if i = j ∧ i < l.length then a else l.getD j d := by
  rw [List.getD_eq_getElem?_getD, List.getElem?_set, List.getD_eq_getElem?_getD]
  by_cases h : i = j
  · subst h
    by_cases h2 : i < l.length
    · simp [h2]
    · simp [h2]
      rw [List.getElem?_eq_none (by omega)]
      rfl
  · simp [h]

theorem World.key_updateKey (w : World) (id j : Nat)
    (f : MonitoredKey → MonitoredKey) :
    (w.updateKey id f).key j
      = if id = j ∧ id < w.heap.length then f (w.key j) else w.key j := by
  unfold World.updateKey World.key
  rw [getD_set]
  by_cases h : id = j ∧ id < w.heap.length
  · rw [if_pos h, if_pos h, h.1]
  · rw [if_neg h, if_neg h]

def kernelFrame (w w' : World) : Prop :=
  w'.monKeys = w.monKeys ∧ w'.monRecKeys = w.monRecKeys
  ∧ w'.keysArray = w.keysArray ∧ w'.timer = w.timer
  ∧ ∀ j, (w'.key j).callbacks = (w.key j).callbacks

theorem kernelFrame_refl (w : World) : kernelFrame w w :=
  ⟨rfl, rfl, rfl, rfl, fun _ => rfl⟩

theorem kernelFrame_trans {u v z : World}
    (h1 : kernelFrame u v) (h2 : kernelFrame v z) : kernelFrame u z := by
  obtain ⟨a1, b1, c1, d1, e1⟩ := h1
  obtain ⟨a2, b2, c2, d2, e2⟩ := h2
  exact ⟨a2.trans a1, b2.trans b1, c2.trans c1, d2.trans d1,
    fun j => (e2 j).trans (e1 j)⟩

theorem kernelFrame_updateKey (w : World) (id : Nat)
    (f : MonitoredKey → MonitoredKey)
    (hf : ∀ k, (f k).callbacks = k.callbacks) :
    kernelFrame w (w.updateKey id f) := by
  refine ⟨rfl, rfl, rfl, rfl, fun j => ?_⟩
  rw [World.key_updateKey]
  split
  · exact hf _
  · rfl

theorem keyClose_frame (env : Env) (w : World) (id : Nat) :
    kernelFrame w (keyClose env w id).1 := by
  unfold keyClose
  dsimp only
  split
  · split
    · exact ⟨rfl, rfl, rfl, rfl, fun _ => rfl⟩
    · exact kernelFrame_trans (v := { w with closeKeyCalls := w.closeKeyCalls + 1 })
        ⟨rfl, rfl, rfl, rfl, fun _ => rfl⟩
        (kernelFrame_updateKey _ id _ (fun _ => rfl))
  · exact kernelFrame_refl w

theorem keyCreateNative_frame (env : Env) (w : World) (id : Nat) :
    kernelFrame w (keyCreateNative env w id).1 := by
  unfold keyCreateNative
  dsimp only
  split
  · split
    · exact kernelFrame_trans (v := { w with createCalls := w.createCalls + 1 })
        ⟨rfl, rfl, rfl, rfl, fun _ => rfl⟩
        (kernelFrame_updateKey _ id _ (fun _ => rfl))
    · exact ⟨rfl, rfl, rfl, rfl, fun _ => rfl⟩
  · exact kernelFrame_refl w

theorem keyCreate_frame (env : Env) (w : World) (id : Nat) :
    kernelFrame w (keyCreate env w id).1 := by
  unfold keyCreate
  dsimp only
  split
  · exact kernelFrame_refl w
  · split
    · split
      · exact keyClose_frame env w id
      · exact kernelFrame_trans (keyClose_frame env w id)
          (keyCreateNative_frame env _ id)
    · exact keyCreateNative_frame env w id

theorem keyOpen_frame (env : Env) (w : World) (id : Nat) :
    kernelFrame w (keyOpen env w id).1 := by
  unfold keyOpen
  dsimp only
  split
  · exact kernelFrame_refl w
  · split
    · split
      · exact kernelFrame_trans (v := { w with openCalls := w.openCalls + 1 })
          ⟨rfl, rfl, rfl, rfl, fun _ => rfl⟩
          (kernelFrame_updateKey _ id _ (fun _ => rfl))
      · split
        · exact kernelFrame_trans (v := { w with openCalls := w.openCalls + 1 })
            ⟨rfl, rfl, rfl, rfl, fun _ => rfl⟩
            (keyCreate_frame env _ id)
        · exact ⟨rfl, rfl, rfl, rfl, fun _ => rfl⟩
    · exact kernelFrame_refl w

theorem keyReopenSuper_frame (env : Env) (w : World) (id : Nat) :
    kernelFrame w (keyReopenSuper env w id).1 := by
  unfold keyReopenSuper
  dsimp only
  split
  · exact kernelFrame_trans (keyClose_frame env w id)
      (keyOpen_frame env (keyClose env w id).1 id)
  · exact keyClose_frame env w id

theorem registerForNotification_frame (env : Env) (fuel : Nat) :
    ∀ (w : World) (id : Nat),
    kernelFrame w (registerForNotification env fuel w id).1 := by
  induction fuel with
  | zero => intro w id; exact kernelFrame_refl w
  | succ f ih =>
    intro w id
    unfold registerForNotification
    dsimp only
    split
    · split
      · exact kernelFrame_trans
          (kernelFrame_trans (v := { w with notifyCalls := w.notifyCalls + 1 })
            ⟨rfl, rfl, rfl, rfl, fun _ => rfl⟩
            (keyReopenSuper_frame env _ id))
          (ih _ id)
      · exact kernelFrame_trans (v := { w with notifyCalls := w.notifyCalls + 1 })
          ⟨rfl, rfl, rfl, rfl, fun _ => rfl⟩
          (keyReopenSuper_frame env _ id)
    · split
      · exact ⟨rfl, rfl, rfl, rfl, fun _ => rfl⟩
      · exact ⟨rfl, rfl, rfl, rfl, fun _ => rfl⟩

theorem mkStart_frame (env : Env) (fuel : Nat) (w : World) (id : Nat) :
    kernelFrame w (mkStart env fuel w id).1 := by
  unfold mkStart
  dsimp only
  split
  · exact kernelFrame_refl w
  · split
    · split
      · exact ⟨rfl, rfl, rfl, rfl, fun _ => rfl⟩
      · refine kernelFrame_trans (v := { w with eventCalls := w.eventCalls + 1 })
          ⟨rfl, rfl, rfl, rfl, fun _ => rfl⟩
          (kernelFrame_trans (kernelFrame_updateKey _ id _ ?_)
            (registerForNotification_frame env fuel _ id))
        intro k
        rfl
    · exact kernelFrame_refl w

/-! ### C4: re-arm first, then fan out in registration order -/

theorem registerForNotification_trace (env : Env) (fuel : Nat) :
    ∀ (w : World) (id : Nat),
    (∀ e ∈ (registerForNotification env fuel w id).2.2, ∃ r, e = Ev.notify r)
    ∧ (fuel ≠ 0 → (registerForNotification env fuel w id).2.2 ≠ []) := by
  induction fuel with
  | zero =>
    intro w id
    refine ⟨?_, by simp⟩
    intro e he
    simp [registerForNotification] at he
  | succ f ih =>
    intro w id
    unfold registerForNotification
    dsimp only
    split
    · refine ⟨?_, by simp⟩
      intro e he
      simp only [List.mem_cons] at he
      cases he with
      | inl h => exact ⟨_, h⟩
      | inr h =>
        split at h
        · exact (ih _ id).1 e h
        · simp at h
    · split
      · exact ⟨fun e he => by
          simp only [List.mem_cons, List.not_mem_nil, or_false] at he
          exact ⟨_, he⟩, by simp⟩
      · exact ⟨fun e he => by
          simp only [List.mem_cons, List.not_mem_nil, or_false] at he
          exact ⟨_, he⟩, by simp⟩

/-- C4: when a monitored key is signaled, `onMonitorTriggered` first
re-registers for the next change notification (one or more native
registration calls, nothing else), and only after that invokes every
registered callback, in registration order, each receiving this
monitored key as its argument. -/
theorem onMonitorTriggered_rearms_then_fans_out (env : Env) (fuel : Nat)
    (w : World) (id : Nat) (hfuel : fuel ≠ 0) :
    ∃ tr : List Ev,
      (onMonitorTriggered env fuel w id).2
        = tr ++ (w.key id).callbacks.map (fun cb => Ev.invoke cb id)
      ∧ tr ≠ []
      ∧ (∀ e ∈ tr, ∃ r, e = Ev.notify r) := by
  refine ⟨(registerForNotification env fuel w id).2.2, ?_,
    (registerForNotification_trace env fuel w id).2 hfuel,
    (registerForNotification_trace env fuel w id).1⟩
  have hcb := (registerForNotification_frame env fuel w id).2.2.2.2 id
  unfold onMonitorTriggered
  dsimp only
  rw [hcb]

/-- C4 witness: the theorem applied to a concrete environment and a
world holding one monitored key with two callbacks. -/
theorem onMonitorTriggered_rearms_then_fans_out_witness :
    ∃ tr : List Ev,
      (onMonitorTriggered
          ⟨fun _ => true, fun _ => 0, fun _ => 0, fun _ => some 77,
            fun _ => 0, fun _ => 0, fun _ => true⟩ 1
          ⟨[⟨9, false, false, some 0, some 77, [100, 200]⟩],
            [(9, 0)], [], [0], true, 1, 0, 1, 1, 0, 0⟩ 0).2
        = tr ++ ((⟨[⟨9, false, false, some 0, some 77, [100, 200]⟩],
            [(9, 0)], [], [0], true, 1, 0, 1, 1, 0, 0⟩ : World).key 0).callbacks.map
              (fun cb => Ev.invoke cb 0)
      ∧ tr ≠ []
      ∧ (∀ e ∈ tr, ∃ r, e = Ev.notify r) :=
  onMonitorTriggered_rearms_then_fans_out
    ⟨fun _ => true, fun _ => 0, fun _ => 0, fun _ => some 77,
      fun _ => 0, fun _ => 0, fun _ => true⟩ 1
    ⟨[⟨9, false, false, some 0, some 77, [100, 200]⟩],
      [(9, 0)], [], [0], true, 1, 0, 1, 1, 0, 0⟩ 0 (by decide)

/-! ### C7: deletion during registration — reopen and retry -/

/-- C7: when the first registration attempt reports "key marked for
deletion" and the reopen plus the retried registration both succeed,
the monitored key does reopen and retry (two native registration calls,
the second succeeding, key handle reopened, monitor valid afterwards) —
but `start()` does NOT report success: the deletion branch of
`registerForNotification` falls through after `this.reopen()` without a
`return`, so `start()` yields `undefined` (falsy) even though the
retried registration succeeded. -/
theorem start_deletion_retry_not_fatal_but_falsy :
    (mkStart
        ⟨fun _ => true, fun _ => 0, fun _ => 0, fun _ => some 77,
          fun i => if i = 0 then KeyMarkedForDeletion else 0,
          fun _ => 0, fun _ => true⟩ 2
        ⟨[⟨9, false, false, some 3, none, [5]⟩], [(9, 0)], [], [0],
          true, 1, 0, 0, 0, 0, 0⟩ 0).2.2
      = [Ev.notify KeyMarkedForDeletion, Ev.notify 0]
    ∧ ((mkStart
        ⟨fun _ => true, fun _ => 0, fun _ => 0, fun _ => some 77,
          fun i => if i = 0 then KeyMarkedForDeletion else 0,
          fun _ => 0, fun _ => true⟩ 2
        ⟨[⟨9, false, false, some 3, none, [5]⟩], [(9, 0)], [], [0],
          true, 1, 0, 0, 0, 0, 0⟩ 0).1.key 0).isValid = true
    ∧ (mkStart
        ⟨fun _ => true, fun _ => 0, fun _ => 0, fun _ => some 77,
          fun i => if i = 0 then KeyMarkedForDeletion else 0,
          fun _ => 0, fun _ => true⟩ 2
        ⟨[⟨9, false, false, some 3, none, [5]⟩], [(9, 0)], [], [0],
          true, 1, 0, 0, 0, 0, 0⟩ 0).1.notifyCalls = 2
    ∧ (mkStart
        ⟨fun _ => true, fun _ => 0, fun _ => 0, fun _ => some 77,
          fun i => if i = 0 then KeyMarkedForDeletion else 0,
          fun _ => 0, fun _ => true⟩ 2
        ⟨[⟨9, false, false, some 3, none, [5]⟩], [(9, 0)], [], [0],
          true, 1, 0, 0, 0, 0, 0⟩ 0).2.1 = false := by
  exact ⟨rfl, rfl, rfl, rfl⟩

/-! ### C8: the poll timer runs iff the flattened array is non-empty -/

/-- The heap ids the flattened `monitoredKeysArray` should list:
recursive watches first, then non-recursive, each map in insertion
order (the `for...in` iteration of `updateMonitoredKeysArray`). -/
def flatIds (w : World) : List Nat :=
  (w.monRecKeys.map Prod.snd) ++ (w.monKeys.map Prod.snd)

/-- The C8 invariant: the flattened array mirrors the two maps, and the
poll timer is running exactly when that array is non-empty. -/
def timerInv (w : World) : Prop :=
  w.keysArray = flatIds w ∧ (w.timer = true ↔ w.keysArray ≠ [])

/-- Facade-state equality (maps, array, timer). -/
def facadeEq (w w' : World) : Prop :=
  w'.monKeys = w.monKeys ∧ w'.monRecKeys = w.monRecKeys
  ∧ w'.keysArray = w.keysArray ∧ w'.timer = w.timer

theorem timerInv_of_facadeEq {w w' : World} (h : timerInv w)
    (hf : facadeEq w w') : timerInv w' := by
  obtain ⟨h1, h2⟩ := h
  obtain ⟨a, b, c, d⟩ := hf
  constructor
  · rw [c, h1]
    unfold flatIds
    rw [a, b]
  · rw [c, d]
    exact h2

theorem facadeEq_of_kernelFrame {w w' : World} (h : kernelFrame w w') :
    facadeEq w w' :=
  ⟨h.1, h.2.1, h.2.2.1, h.2.2.2.1⟩

theorem facadeEq_refl (w : World) : facadeEq w w := ⟨rfl, rfl, rfl, rfl⟩

theorem facadeEq_trans {u v z : World} (a : facadeEq u v)
    (b : facadeEq v z) : facadeEq u z :=
  ⟨b.1.trans a.1, b.2.1.trans a.2.1, b.2.2.1.trans a.2.2.1, b.2.2.2.trans a.2.2.2⟩

theorem facadeEq_updateKey (w : World) (id : Nat)
    (f : MonitoredKey → MonitoredKey) : facadeEq w (w.updateKey id f) :=
  ⟨rfl, rfl, rfl, rfl⟩

theorem lookup_some_ne_nil {l : List (Path × Nat)} {p : Path} {v : Nat}
    (h : l.lookup p = some v) : l ≠ [] := by
  intro hc
  subst hc
  simp [List.lookup] at h

theorem alistInsert_ne_nil (l : List (Path × Nat)) (p : Path) (v : Nat) :
    alistInsert l p v ≠ [] := by
  unfold alistInsert
  split
  · rename_i h
    cases l with
    | nil => simp [List.lookup] at h
    | cons a t => simp
  · simp

theorem alistErase_nil (p : Path) : alistErase [] p = [] := rfl

/-- `updateMonitoredKeysArray` restores the invariant, provided the
timer was already running whenever the (new) flattened list is
non-empty. -/
theorem updateArray_timerInv (w : World)
    (h : flatIds w ≠ [] → w.timer = true) :
    timerInv (updateMonitoredKeysArray w) := by
  unfold updateMonitoredKeysArray
  dsimp only
  split
  · rename_i hemp
    rw [List.isEmpty_iff] at hemp
    exact ⟨rfl, by simp [hemp]⟩
  · rename_i hemp
    rw [List.isEmpty_iff] at hemp
    exact ⟨rfl, by simp [hemp, h hemp]⟩

/-- Publishing step of `monitorKey`: array rebuild followed by
`startMonitorTimer`. -/
theorem publish_timerInv (w : World) (hne : flatIds w ≠ []) :
    timerInv { updateMonitoredKeysArray w with timer := true } := by
  unfold updateMonitoredKeysArray
  dsimp only
  split
  · rename_i hemp
    rw [List.isEmpty_iff] at hemp
    exact absurd hemp hne
  · exact ⟨rfl, by simp [flatIds] at hne ⊢; exact hne⟩

theorem stopInternal_timerInv (env : Env) (w : World) (id : Nat)
    (h : timerInv w) : timerInv (stopMonitoredKeyInternal env w id).1 := by
  unfold stopMonitoredKeyInternal
  dsimp only
  split
  · split
    · apply updateArray_timerInv
      intro hne
      -- the erased maps are non-empty only if the original ones were
      have hflat : flatIds w ≠ [] := by
        intro hc
        apply hne
        unfold flatIds at hc ⊢
        rw [List.append_eq_nil] at hc
        obtain ⟨hrec, hmon⟩ := hc
        rw [List.map_eq_nil_iff] at hrec hmon
        split
        · simp [hrec, hmon, alistErase_nil, World.updateKey]
        · simp [hrec, hmon, alistErase_nil, World.updateKey]
      have htimer : w.timer = true := h.2.mpr (h.1 ▸ hflat)
      split
      · exact htimer
      · exact htimer
    · exact timerInv_of_facadeEq h ⟨rfl, rfl, rfl, rfl⟩
  · exact h

theorem mkStop_timerInv (env : Env) (w : World) (id : Nat)
    (h : timerInv w) : timerInv (mkStop env w id).1 := by
  unfold mkStop
  dsimp only
  split
  · exact timerInv_of_facadeEq h (facadeEq_updateKey _ _ _)
  · split
    · exact timerInv_of_facadeEq (stopInternal_timerInv env w id h)
        (facadeEq_updateKey _ _ _)
    · exact stopInternal_timerInv env w id h

theorem removeCallback_timerInv (env : Env) (w : World) (id : Nat)
    (cb : Callback) (h : timerInv w) :
    timerInv (removeCallback env w id cb).1 := by
  unfold removeCallback
  dsimp only
  split
  · split
    · split
      · exact timerInv_of_facadeEq
          (mkStop_timerInv env _ id (timerInv_of_facadeEq h (facadeEq_updateKey _ _ _)))
          (facadeEq_of_kernelFrame (keyClose_frame env _ id))
      · exact mkStop_timerInv env _ id
          (timerInv_of_facadeEq h (facadeEq_updateKey _ _ _))
    · exact timerInv_of_facadeEq h (facadeEq_updateKey _ _ _)
  · exact h

theorem stopMonitorInternal_timerInv (env : Env) (w : World) (t : Token)
    (h : timerInv w) : timerInv (stopMonitorInternal env w t).1 := by
  unfold stopMonitorInternal
  dsimp only
  split
  · split
    · split
      · exact removeCallback_timerInv env w _ _ h
      · exact removeCallback_timerInv env w _ _ h
    · exact h
  · exact h

theorem tokenStop_timerInv (env : Env) (w : World) (t : Token)
    (h : timerInv w) : timerInv (tokenStop env w t).1 := by
  unfold tokenStop
  dsimp only
  exact stopMonitorInternal_timerInv env w t h

theorem monitorKeyNew_timerInv (env : Env) (fuel : Nat) (w : World)
    (p : Path) (rc ci : Bool) (cb : Callback) (h : timerInv w) :
    timerInv (monitorKeyNew env fuel w p rc ci cb).1 := by
  unfold monitorKeyNew
  dsimp only
  have hpre : timerInv (mkStart env fuel
      (((keyOpen env { w with heap := w.heap ++ [⟨p, rc, ci, none, none, []⟩] }
        w.heap.length).1).updateKey w.heap.length
          (fun k => { k with callbacks := k.callbacks ++ [cb] }))
      w.heap.length).1 := by
    refine timerInv_of_facadeEq h
      (facadeEq_trans
        (v := { w with heap := w.heap ++ [⟨p, rc, ci, none, none, []⟩] })
        ⟨rfl, rfl, rfl, rfl⟩ ?_)
    refine facadeEq_trans
      (v := (keyOpen env { w with heap := w.heap ++ [⟨p, rc, ci, none, none, []⟩] }
        w.heap.length).1)
      (facadeEq_of_kernelFrame (keyOpen_frame env _ _)) ?_
    exact facadeEq_trans (facadeEq_updateKey _ _ _)
      (facadeEq_of_kernelFrame (mkStart_frame env fuel _ _))
  split
  · split
    · apply publish_timerInv
      intro hc
      unfold flatIds at hc
      simp only [List.append_eq_nil, List.map_eq_nil_iff] at hc
      exact alistInsert_ne_nil _ p w.heap.length hc.1
    · apply publish_timerInv
      intro hc
      unfold flatIds at hc
      simp only [List.append_eq_nil, List.map_eq_nil_iff] at hc
      exact alistInsert_ne_nil _ p w.heap.length hc.2
  · exact mkStop_timerInv env _ _ hpre

theorem monitorKey_timerInv (env : Env) (fuel : Nat) (w : World)
    (p : Path) (rc ci : Bool) (cb : Callback) (h : timerInv w) :
    timerInv (monitorKey env fuel w p rc ci cb).1 := by
  unfold monitorKey
  dsimp only
  split
  · rename_i id heq
    split
    · constructor
      · exact h.1
      · constructor
        · intro _
          show w.keysArray ≠ []
          rw [h.1]
          unfold flatIds
          intro hc
          rw [List.append_eq_nil] at hc
          obtain ⟨hrec, hmon⟩ := hc
          rw [List.map_eq_nil_iff] at hrec hmon
          cases rc with
          | true =>
            rw [if_pos rfl] at heq
            exact lookup_some_ne_nil heq hrec
          | false =>
            rw [if_neg (by simp)] at heq
            exact lookup_some_ne_nil heq hmon
        · intro _
          rfl
    · exact monitorKeyNew_timerInv env fuel w p rc ci cb h
  · exact monitorKeyNew_timerInv env fuel w p rc ci cb h

/-- C8: after every completed facade operation — a `monitorKey` call
(successful or failed) or a token stop — the flattened array still
mirrors the two path→key maps and the periodic check timer is running
if and only if that array is non-empty. -/
theorem pollTimer_iff_monitored (env : Env) (fuel : Nat) (w : World)
    (p : Path) (rc ci : Bool) (cb : Callback) (t : Token)
    (h : timerInv w) :
    timerInv (monitorKey env fuel w p rc ci cb).1
    ∧ timerInv (tokenStop env w t).1 :=
  ⟨monitorKey_timerInv env fuel w p rc ci cb h,
   tokenStop_timerInv env w t h⟩

/-- C8 witness: the theorem applied to the initial (empty) facade state
and a concrete environment. -/
theorem pollTimer_iff_monitored_witness :
    timerInv (monitorKey
        ⟨fun _ => true, fun _ => 0, fun _ => 0, fun _ => some 77,
          fun _ => 0, fun _ => 0, fun _ => true⟩ 1 initialWorld
        9 false false 100).1
    ∧ timerInv (tokenStop
        ⟨fun _ => true, fun _ => 0, fun _ => 0, fun _ => some 77,
          fun _ => 0, fun _ => 0, fun _ => true⟩ initialWorld
        ⟨9, false, none⟩).1 :=
  pollTimer_iff_monitored
    ⟨fun _ => true, fun _ => 0, fun _ => 0, fun _ => some 77,
      fun _ => 0, fun _ => 0, fun _ => true⟩ 1 initialWorld
    9 false false 100 ⟨9, false, none⟩ ⟨rfl, by simp [initialWorld]⟩

/-! ### C2: deduplication and shared teardown -/

/-- C2: starting from the empty facade, with native opens, event
creation and registration succeeding, two `monitorKey` calls for the
same (path, recursive) pair return two distinct tokens backed by the
one same MonitoredKey (heap of length 1, both map lookups yielding it,
its callback list `[cb1, cb2]`); stopping the first token removes only
its callback (`[cb2]` remains, still deliverable on the next signal, no
native CloseHandle yet); stopping the second token closes the native
wait object exactly once and removes the MonitoredKey from the facade's
map and flattened array. -/
theorem monitorKey_dedup_shared_teardown (env : Env) (p : Path)
    (rc ci : Bool) (cb1 cb2 : Callback) (hv : Nat)
    (hcb : cb1 ≠ cb2)
    (hpath : env.pathValid p = true)
    (hopen : env.openResult 0 = 0)
    (hevent : env.createEventResult 0 = some hv)
    (hnotify : env.notifyResult 0 = 0)
    (hch : env.closeHandleOk 0 = true)
    (hck : env.closeKeyResult 0 = 0) :
    ∃ w1 w2 w3 w4 : World,
      monitorKey env 1 initialWorld p rc ci cb1 = (w1, some ⟨p, rc, some cb1⟩)
      ∧ monitorKey env 1 w1 p rc ci cb2 = (w2, some ⟨p, rc, some cb2⟩)
      ∧ (⟨p, rc, some cb1⟩ : Token) ≠ ⟨p, rc, some cb2⟩
      ∧ (if rc then w1.monRecKeys else w1.monKeys).lookup p = some 0
      ∧ (if rc then w2.monRecKeys else w2.monKeys).lookup p = some 0
      ∧ w2.heap.length = 1
      ∧ (w2.key 0).callbacks = [cb1, cb2]
      ∧ tokenStop env w2 ⟨p, rc, some cb1⟩ = (w3, ⟨p, rc, none⟩, true)
      ∧ (w3.key 0).callbacks = [cb2]
      ∧ (if rc then w3.monRecKeys else w3.monKeys).lookup p = some 0
      ∧ w3.closeHandleCalls = 0
      ∧ Ev.invoke cb2 0 ∈ (onMonitorTriggered env 1 w3 0).2
      ∧ tokenStop env w3 ⟨p, rc, some cb2⟩ = (w4, ⟨p, rc, none⟩, true)
      ∧ w4.closeHandleCalls = 1
      ∧ (w4.key 0).waitHandle = none
      ∧ (if rc then w4.monRecKeys else w4.monKeys).lookup p = none
      ∧ w4.keysArray = [] := by
  have htok : (⟨p, rc, some cb1⟩ : Token) ≠ ⟨p, rc, some cb2⟩ := by
    intro hc
    injection hc with _ _ h3
    exact hcb (Option.some.inj h3)
  cases rc with
  | false =>
    refine ⟨⟨[⟨p, false, ci, some 0, some hv, [cb1]⟩], [(p, 0)], [], [0],
        true, 1, 0, 1, 1, 0, 0⟩,
      ⟨[⟨p, false, ci, some 0, some hv, [cb1, cb2]⟩], [(p, 0)], [], [0],
        true, 1, 0, 1, 1, 0, 0⟩,
      ⟨[⟨p, false, ci, some 0, some hv, [cb2]⟩], [(p, 0)], [], [0],
        true, 1, 0, 1, 1, 0, 0⟩,
      ⟨[⟨p, false, ci, none, none, []⟩], [], [], [], false, 1, 0, 1, 1, 1, 1⟩,
      ?_, ?_, htok, ?_, ?_, ?_, ?_, ?_, ?_, ?_, ?_, ?_, ?_, ?_, ?_, ?_, ?_⟩
    · simp [monitorKey, monitorKeyNew, keyOpen, mkStart, registerForNotification,
        updateMonitoredKeysArray, initialWorld, World.key, World.updateKey,
        alistInsert, MonitoredKey.isValid, MonitoredKey.superValid,
        hpath, hopen, hevent, hnotify, KeyMarkedForDeletion]
    · simp [monitorKey, World.key, World.updateKey, MonitoredKey.isValid,
        MonitoredKey.superValid]
    · simp [List.lookup]
    · simp [List.lookup]
    · rfl
    · rfl
    · simp [tokenStop, stopMonitorInternal, removeCallback, World.key,
        World.updateKey, List.erase_cons, hcb]
    · rfl
    · simp [List.lookup]
    · rfl
    · have hcb2 : (((registerForNotification env 1
          ⟨[⟨p, false, ci, some 0, some hv, [cb2]⟩], [(p, 0)], [], [0],
            true, 1, 0, 1, 1, 0, 0⟩ 0).1).key 0).callbacks = [cb2] :=
        (registerForNotification_frame env 1 _ 0).2.2.2.2 0
      unfold onMonitorTriggered
      dsimp only
      rw [hcb2]
      simp
    · simp [tokenStop, stopMonitorInternal, removeCallback, mkStop,
        stopMonitoredKeyInternal, keyClose, updateMonitoredKeysArray,
        alistErase, World.key, World.updateKey, hch, hck, List.erase_cons]
    · rfl
    · rfl
    · simp [List.lookup]
    · rfl
  | true =>
    refine ⟨⟨[⟨p, true, ci, some 0, some hv, [cb1]⟩], [], [(p, 0)], [0],
        true, 1, 0, 1, 1, 0, 0⟩,
      ⟨[⟨p, true, ci, some 0, some hv, [cb1, cb2]⟩], [], [(p, 0)], [0],
        true, 1, 0, 1, 1, 0, 0⟩,
      ⟨[⟨p, true, ci, some 0, some hv, [cb2]⟩], [], [(p, 0)], [0],
        true, 1, 0, 1, 1, 0, 0⟩,
      ⟨[⟨p, true, ci, none, none, []⟩], [], [], [], false, 1, 0, 1, 1, 1, 1⟩,
      ?_, ?_, htok, ?_, ?_, ?_, ?_, ?_, ?_, ?_, ?_, ?_, ?_, ?_, ?_, ?_, ?_⟩
    · simp [monitorKey, monitorKeyNew, keyOpen, mkStart, registerForNotification,
        updateMonitoredKeysArray, initialWorld, World.key, World.updateKey,
        alistInsert, MonitoredKey.isValid, MonitoredKey.superValid,
        hpath, hopen, hevent, hnotify, KeyMarkedForDeletion]
    · simp [monitorKey, World.key, World.updateKey, MonitoredKey.isValid,
        MonitoredKey.superValid]
    · simp [List.lookup]
    · simp [List.lookup]
    · rfl
    · rfl
    · simp [tokenStop, stopMonitorInternal, removeCallback, World.key,
        World.updateKey, List.erase_cons, hcb]
    · rfl
    · simp [List.lookup]
    · rfl
    · have hcb2 : (((registerForNotification env 1
          ⟨[⟨p, true, ci, some 0, some hv, [cb2]⟩], [], [(p, 0)], [0],
            true, 1, 0, 1, 1, 0, 0⟩ 0).1).key 0).callbacks = [cb2] :=
        (registerForNotification_frame env 1 _ 0).2.2.2.2 0
      unfold onMonitorTriggered
      dsimp only
      rw [hcb2]
      simp
    · simp [tokenStop, stopMonitorInternal, removeCallback, mkStop,
        stopMonitoredKeyInternal, keyClose, updateMonitoredKeysArray,
        alistErase, World.key, World.updateKey, hch, hck, List.erase_cons]
    · rfl
    · rfl
    · simp [List.lookup]
    · rfl

/-- C2 witness: the theorem applied to a concrete environment, path and
two distinct callbacks. -/
theorem monitorKey_dedup_shared_teardown_witness :
    ∃ w1 w2 w3 w4 : World,
      monitorKey ⟨fun _ => true, fun _ => 0, fun _ => 0, fun _ => some 77,
          fun _ => 0, fun _ => 0, fun _ => true⟩ 1 initialWorld 9 false false 100
        = (w1, some ⟨9, false, some 100⟩)
      ∧ monitorKey ⟨fun _ => true, fun _ => 0, fun _ => 0, fun _ => some 77,
          fun _ => 0, fun _ => 0, fun _ => true⟩ 1 w1 9 false false 200
        = (w2, some ⟨9, false, some 200⟩)
      ∧ (⟨9, false, some 100⟩ : Token) ≠ ⟨9, false, some 200⟩
      ∧ (if false then w1.monRecKeys else w1.monKeys).lookup 9 = some 0
      ∧ (if false then w2.monRecKeys else w2.monKeys).lookup 9 = some 0
      ∧ w2.heap.length = 1
      ∧ (w2.key 0).callbacks = [100, 200]
      ∧ tokenStop ⟨fun _ => true, fun _ => 0, fun _ => 0, fun _ => some 77,
          fun _ => 0, fun _ => 0, fun _ => true⟩ w2 ⟨9, false, some 100⟩
        = (w3, ⟨9, false, none⟩, true)
      ∧ (w3.key 0).callbacks = [200]
      ∧ (if false then w3.monRecKeys else w3.monKeys).lookup 9 = some 0
      ∧ w3.closeHandleCalls = 0
      ∧ Ev.invoke 200 0 ∈ (onMonitorTriggered ⟨fun _ => true, fun _ => 0,
          fun _ => 0, fun _ => some 77, fun _ => 0, fun _ => 0, fun _ => true⟩
          1 w3 0).2
      ∧ tokenStop ⟨fun _ => true, fun _ => 0, fun _ => 0, fun _ => some 77,
          fun _ => 0, fun _ => 0, fun _ => true⟩ w3 ⟨9, false, some 200⟩
        = (w4, ⟨9, false, none⟩, true)
      ∧ w4.closeHandleCalls = 1
      ∧ (w4.key 0).waitHandle = none
      ∧ (if false then w4.monRecKeys else w4.monKeys).lookup 9 = none
      ∧ w4.keysArray = [] :=
  monitorKey_dedup_shared_teardown
    ⟨fun _ => true, fun _ => 0, fun _ => 0, fun _ => some 77,
      fun _ => 0, fun _ => 0, fun _ => true⟩ 9 false false 100 200 77
    (by decide) rfl rfl rfl rfl rfl rfl

/-! ## `Registry.monitorValue`: the subscription-time value check

`monitorValue` wraps the caller's callback via `monitorKey` and then,
at subscription time, checks existence and type of the value and — when
an explicit compare value was given — compares the current value
against it, firing the caller's callback synchronously on a mismatch.
With no compare value (tracking mode) it only reads the baseline.  The
native reads are abstracted by `MVEnv` (`checkValueExistence`,
`getValueType`, `getValue` results); `calls` records the caller-callback
invocations performed during the `monitorValue` call itself, each with
its `(monitoredKey, currentValue, compareValue)` arguments. -/

/-- JS strict equality `===` as applied by `Registry.checkValue` to the
scalar and string cases (value equality on primitives; for these types
`getValue` returns numbers or strings, never objects). -/
def strictEq : RegValue → RegValue → Bool
  | .num a, .num b => a == b
  | .str a, .str b => a == b
  | _, _ => false

/-- The set of value types `monitorValue`'s type probe accepts (the
same six types the codec supports); anything else throws. -/
def supportedValueType (t : Nat) : Bool :=
  t = REG_DWORD || t = REG_QWORD || t = REG_SZ || t = REG_EXPAND_SZ
    || t = REG_MULTI_SZ || t = REG_BINARY

/-- `Registry.checkValue`: null handling first; then scalar/string
strict equality, multi-string length-then-elementwise comparison, or
binary byte comparison; the default branch throws (`none`).  Values are
compared in the shape their type implies (which is what `getValue`
produces). -/
def checkValue (cur cmp : Option RegValue) (t : Nat) : Option Bool :=
  match cur, cmp with
  | none, none => some true
  | none, some _ => some false
  | some _, none => some false
  | some c, some d =>
    if t = REG_DWORD ∨ t = REG_QWORD ∨ t = REG_SZ ∨ t = REG_EXPAND_SZ then
      some (strictEq c d)
    else if t = REG_MULTI_SZ then
      some (match c, d with
        | .multi a, .multi b => a == b
        | _, _ => false)
    else if t = REG_BINARY then
      some (match c, d with
        | .bin a, .bin b => a == b
        | _, _ => false)
    else none

/-- Results of the native reads `monitorValue` performs at subscription
time, plus whether the underlying `monitorKey` call succeeded. -/
structure MVEnv where
  monitorKeyOk : Bool
  keyId : Nat
  valueExists : Bool
  valueType : Nat
  currentValue : Option RegValue

structure MVResult where
  /-- `monitorValue` returned a non-null token. -/
  tokenReturned : Bool
  /-- `stopMonitor` was invoked on the token during subscription. -/
  tokenStopped : Bool
  /-- The token's `trackCurrentValue` flag. -/
  track : Bool
  /-- The closure variable `compareValue` after the call (the baseline). -/
  compareAfter : Option RegValue
  /-- Caller-callback invocations performed during the call. -/
  calls : List (Nat × Option RegValue × Option RegValue)
deriving DecidableEq, Repr

/-- The subscription-time portion of `Registry.monitorValue` (after the
`monitorKey` call), including the `getValueType` helper.  `.error ()`
models a thrown exception.  Two source quirks around `monitorToken`,
which is a `const` binding: when the type lookup yields `REG_NONE`, the
helper stops the monitor but nulls only its own parameter copy, so the
stopped token is still returned; but in tracking mode, when `getValue`
returns null, the outer scope itself runs `monitorToken = null` right
after `stopMonitor` — reassigning the `const` binding, which throws a
TypeError. -/
def monitorValueInit (env : MVEnv) (compareValue : Option RegValue) :
    Except Unit MVResult :=
  if ¬ env.monitorKeyOk then
    .ok ⟨false, false, decide (compareValue = none), compareValue, []⟩
  else
    let track := decide (compareValue = none)
    if env.valueExists then
      if env.valueType = REG_NONE then
        .ok ⟨true, true, track, compareValue, []⟩
      else if ¬ supportedValueType env.valueType then
        .error ()
      else if track then
        match env.currentValue with
        | none => .error ()
        | some v => .ok ⟨true, false, track, some v, []⟩
      else
        match checkValue env.currentValue compareValue env.valueType with
        | some true => .ok ⟨true, false, track, compareValue, []⟩
        | some false => .ok ⟨true, false, track, compareValue,
            [(env.keyId, env.currentValue, compareValue)]⟩
        | none => .error ()
    else
      .ok ⟨true, false, track, compareValue, []⟩

/-- C3: for a value that exists with a supported type, (a) with an
explicit compare value whose comparison against the current value
fails, the caller's callback fires exactly once synchronously during
the `monitorValue` call, receiving (monitoredKey, currentValue,
compareValue); (b) with the compare value omitted (tracking mode) and
the current value readable, no callback fires during the call — the
first observation only establishes the baseline; (c) in tracking mode
with the current value unreadable, the call throws (the source
reassigns the `const` token binding) — so again no callback fires. -/
theorem monitorValue_subscription_check (env : MVEnv) (c : RegValue)
    (hok : env.monitorKeyOk = true)
    (hex : env.valueExists = true)
    (hsupp : supportedValueType env.valueType = true) :
    (checkValue env.currentValue (some c) env.valueType = some false →
      monitorValueInit env (some c)
        = .ok ⟨true, false, false, some c, [(env.keyId, env.currentValue, some c)]⟩)
    ∧ (∀ v : RegValue, env.currentValue = some v →
        monitorValueInit env none = .ok ⟨true, false, true, some v, []⟩)
    ∧ (env.currentValue = none →
        monitorValueInit env none = .error ()) := by
  have hnz : ¬ env.valueType = REG_NONE := by
    intro h
    rw [h] at hsupp
    simp [supportedValueType, REG_NONE, REG_DWORD, REG_QWORD, REG_SZ,
      REG_EXPAND_SZ, REG_MULTI_SZ, REG_BINARY] at hsupp
  refine ⟨?_, ?_, ?_⟩
  · intro hcheck
    simp [monitorValueInit, hok, hex, hnz, hsupp, hcheck]
  · intro v hcv
    simp [monitorValueInit, hok, hex, hnz, hsupp, hcv]
  · intro hcv
    simp [monitorValueInit, hok, hex, hnz, hsupp, hcv]

/-- C3 witness: the spec's concrete example — stored DWORD value `1`,
explicit compare value `0`: the callback fires once at subscription
with (current = 1, compare = 0); in tracking mode it does not fire and
the baseline becomes `1`; with the value unreadable in tracking mode
the call throws. -/
theorem monitorValue_subscription_check_witness :
    monitorValueInit ⟨true, 5, true, 4, some (RegValue.num 1)⟩ (some (RegValue.num 0))
      = .ok ⟨true, false, false, some (RegValue.num 0),
          [(5, some (RegValue.num 1), some (RegValue.num 0))]⟩
    ∧ monitorValueInit ⟨true, 5, true, 4, some (RegValue.num 1)⟩ none
        = .ok ⟨true, false, true, some (RegValue.num 1), []⟩
    ∧ monitorValueInit ⟨true, 5, true, 4, none⟩ none = .error () :=
  have h1 := monitorValue_subscription_check ⟨true, 5, true, 4, some (RegValue.num 1)⟩
    (RegValue.num 0) rfl rfl (by decide)
  have h2 := monitorValue_subscription_check ⟨true, 5, true, 4, none⟩
    (RegValue.num 0) rfl rfl (by decide)
  ⟨h1.1 (by decide), h1.2.1 (RegValue.num 1) rfl, h2.2.2 rfl⟩

end RegMon
